import Mathlib

/-!
Verification of the middleware chain in `src/utils/Middlewares.js` of the
club-gamma backend. The JavaScript guards are embedded shallowly: each guard
becomes a pure Lean function from a request context to a `GuardOutcome`
(continue, signal an error descriptor to the shared error handler, or write a
response directly), and the terminal `errorMiddleware` becomes a pure function
from an error descriptor to the HTTP response it sends. External collaborators
(the JWT library, the Prisma user/token store, the thrown-error messages of the
JS runtime) are parameters gathered in a `Services` record.
-/

namespace ClubGamma

/-- JavaScript values, as far as the middlewares inspect them: request bodies,
token payloads, claim values and extra error data. -/
inductive JSVal where
  | undefined
  | null
  | bool (b : Bool)
  | num (n : Int)
  | str (s : String)
  | arr (elems : List JSVal)
  | obj (fields : List (String × JSVal))
deriving Repr

/-- JavaScript truthiness, used by the sources `if (!x)` and `x || y` tests. -/
def JSVal.truthy : JSVal → Bool
  | .undefined => false
  | .null => false
  | .bool b => b
  | .num n => n != 0
  | .str s => s != ""
  | .arr _ => true
  | .obj _ => true

/-- Property access `v.k` on a JavaScript value: a lookup on objects, and
`undefined` on primitives (the guards never read properties of `null` or
`undefined` without a surrounding try/catch, which is modelled at the call
sites). -/
def JSVal.getField : JSVal → String → JSVal
  | .obj fields, k => (fields.lookup k).getD .undefined
  | _, _ => .undefined

/-- Tests whether a JavaScript value is a string (only strings have the
`toLowerCase` method the email guard calls). -/
def JSVal.isStr : JSVal → Bool
  | .str _ => true
  | _ => false

/-- A thrown JavaScript exception: `message` is its `.message` property and
`val` the error object itself, which the catch blocks forward as `extraData`. -/
structure JsError where
  message : String
  val : JSVal := .obj []
deriving Repr

/-- User record from the store. `isVerified` is kept as a JavaScript value
because the guard compares it with `=== false` and the spec distinguishes
`true`, `null` and `undefined` from `false`. -/
structure User where
  sys_id : String
  githubId : String
  email : String
  isVerified : JSVal := .bool true
deriving Repr

/-- Verification token record from the store; `expiresAt` in ms since epoch. -/
structure VerificationToken where
  userId : String
  expiresAt : Int
deriving Repr, DecidableEq

/-- Error descriptor handed to `next`. The source is inconsistent about the
key holding the HTTP status: some call sites write `statusCode`, others write
`status`; the record keeps both fields so the handler can be checked against
exactly what each guard sends. Absent fields are `none`. -/
structure ErrDescriptor where
  path : Option String := none
  statusCode : Option Nat := none
  status : Option Nat := none
  message : Option String := none
  extraData : Option JSVal := none
  stack : Option String := none
deriving Repr

/-- The `error` object built by `errorMiddleware`: the (defaulted) message,
merged with `extraData` when the descriptor carries a truthy one. -/
structure ErrorBody where
  message : String
  extraData : Option JSVal := none
deriving Repr

/-- Envelope sent by `errorMiddleware`. Modelled from the spec: the `ApiError`
class (required from `./ApiError`, a repository file not present under the
sources) produces the envelope `\x7b statusCode, message, error, stack \x7d`. -/
structure ApiErrorEnvelope where
  statusCode : Nat
  message : Option String
  error : ErrorBody
  stack : Option String
deriving Repr

/-- The HTTP response written by `errorMiddleware`: `res.status(c).send(env)`. -/
structure HttpResponse where
  status : Nat
  envelope : ApiErrorEnvelope
deriving Repr

/-- Terminal error handler. Defaults the message when falsy, merges a truthy
`extraData` into the error body, defaults `err.statusCode` to 400 when falsy,
then sends the `ApiError` envelope with that status. The `status` field of the
descriptor is never consulted. -/
def errorMiddleware (err : ErrDescriptor) : HttpResponse :=
  let msg : String :=
    match err.message with
    | some s => if s = "" then "Something went wrong" else s
    | none => "Something went wrong"
  let body : ErrorBody :=
    { message := msg
      extraData :=
        match err.extraData with
        | some v => if v.truthy then some v else none
        | none => none }
  let sc : Nat :=
    match err.statusCode with
    | some n => if n = 0 then 400 else n
    | none => 400
  { status := sc
    envelope := { statusCode := sc, message := err.message, error := body, stack := err.stack } }

/-- One reported schema-validation issue; `rest` carries the remaining fields
of the issue object. -/
structure ZodIssue where
  message : String
  rest : List (String × JSVal) := []
deriving Repr

/-- Result of a failed `schema.parseAsync`: the validation engine always
reports at least one issue, which the source relies on by reading
`err.errors[0].message`; the first issue is therefore a separate field. -/
structure ZodError where
  firstIssue : ZodIssue
  restIssues : List ZodIssue := []
deriving Repr

/-- The full issue list `err.errors` of a validation failure. -/
def ZodError.issues (e : ZodError) : List ZodIssue := e.firstIssue :: e.restIssues

/-- JavaScript representation of an issue, as it appears inside `extraData`. -/
def ZodIssue.toJS (i : ZodIssue) : JSVal := .obj (("message", .str i.message) :: i.rest)

/-- The `err.errors` array as a JavaScript value. -/
def ZodError.toJS (e : ZodError) : JSVal := .arr (e.issues.map ZodIssue.toJS)

/-- Request context. `cookieToken` is `req.cookies?.token` (cookie values are
strings; `none` covers both a missing cookie jar and a missing `token`
cookie), `authHeader` is `req.header("Authorization")`, and `user` is the
record attached by an authentication guard, `none` before one has run. -/
structure Request where
  body : JSVal := .undefined
  cookieToken : Option String := none
  authHeader : Option String := none
  user : Option User := none
  originalUrl : String := ""
deriving Repr

/-- Outcome of running one guard on a request: continue the chain with the
(possibly mutated) request, hand an error descriptor to the shared handler, or
write a response directly to the client. -/
inductive GuardOutcome where
  | next (req : Request)
  | nextErr (req : Request) (err : ErrDescriptor)
  | respond (req : Request) (status : Nat) (body : JSVal)
deriving Repr

/-- Schema guard: parse the body; on success replace `req.body` with the
parsed value and continue; on failure call `next` with a descriptor whose
`status` key (not `statusCode`) is 422, whose message is the first issue
message and whose `extraData` is the full issue list. -/
def validateSchema (schema : JSVal → Except ZodError JSVal) (req : Request) : GuardOutcome :=
  match schema req.body with
  | .ok parsedBody => .next { req with body := parsedBody }
  | .error err =>
      .nextErr req
        { path := some (req.originalUrl ++ "/middleware/validate")
          status := some 422
          message := some err.firstIssue.message
          extraData := some err.toJS }

/-- External collaborators of the guards: token verification, the user and
token stores, and the messages of runtime TypeErrors (which come from the JS
engine, not from this repository). -/
structure Services where
  verify : String → Except JsError JSVal
  findUserByGithubId : JSVal → Option User
  findUserByEmail : String → Option User
  findTokenByUserId : String → Option VerificationToken
  tlcError : JSVal → JsError
  destructureError : JsError
  userAccessError : JsError

/-- Lower-cases one character, as `String.prototype.toLowerCase` does on the
ASCII range the email strings of the guards live in. -/
def jsCharToLower (c : Char) : Char :=
  if 'A' ≤ c ∧ c ≤ 'Z' then Char.ofNat (c.toNat + 32) else c

/-- `String.prototype.toLowerCase`. -/
def jsToLowerCase (s : String) : String := String.mk (s.data.map jsCharToLower)

/-- Splits a character list at every occurrence of `sep`, keeping empty
pieces, exactly as `String.prototype.split` does with a one-character
separator. -/
def jsSplitChars (sep : Char) : List Char → List (List Char)
  | [] => [[]]
  | c :: cs =>
      match jsSplitChars sep cs with
      | [] => if c = sep then [[], [c]] else [[c]]
      | w :: ws => if c = sep then [] :: w :: ws else (c :: w) :: ws

/-- `s.split(" ")`. -/
def jsSplitSpace (s : String) : List String :=
  (jsSplitChars ' ' s.data).map String.mk

/-- Token selection of `verifyJWT`:
`req.cookies?.token || req.header("Authorization")?.split(" ")[1]`.
A falsy (empty) cookie token falls through to the header; a header without a
second space-separated part yields `undefined`, modelled as `none`. -/
def selectToken (req : Request) : Option String :=
  let headerPart : Option String :=
    match req.authHeader with
    | none => none
    | some h => (jsSplitSpace h).get? 1
  match req.cookieToken with
  | some s => if s = "" then headerPart else some s
  | none => headerPart

/-- Truthiness of the selected token for the `if (!token)` test: absent or
the empty string is falsy. -/
def tokenTruthy : Option String → Bool
  | none => false
  | some s => s != ""

/-- Authentication guard. Selects the token (cookie first, then bearer
header); a falsy token fails 401 "No token provided"; a token whose
verification throws fails 401 "Invalid token"; a payload whose `id` claim is
falsy fails 401 "Invalid token"; an `id` matching no user fails 401
"User not found"; otherwise the found user is attached and the chain
continues. The store lookup is modelled total, so the outer catch (500) has no
inhabitant here. -/
def verifyJWT (svc : Services) (req : Request) : GuardOutcome :=
  let token := selectToken req
  if ¬ tokenTruthy token then
    .nextErr req
      { path := some "/middleware/verifyJWT", statusCode := some 401
        message := some "No token provided" }
  else
    match svc.verify (token.getD "") with
    | .error _ =>
        .nextErr req
          { path := some "/middleware/verifyJWT", statusCode := some 401
            message := some "Invalid token" }
    | .ok payload =>
        if ¬ (payload.getField "id").truthy then
          .nextErr req
            { path := some "/middleware/verifyJWT", statusCode := some 401
              message := some "Invalid token" }
        else
          match svc.findUserByGithubId (payload.getField "id") with
          | none =>
              .nextErr req
                { path := some "/middleware/verifyJWT", statusCode := some 401
                  message := some "User not found" }
          | some user => .next { req with user := some user }

/-- Descriptor built by the catch blocks of `isUser`, `isVerified` and
`verificationMailSent`: the HTTP status sits under the `status` key, the
`statusCode` key the error handler reads stays absent. -/
def catchDescriptor (code : Nat) (e : JsError) : ErrDescriptor :=
  { status := some code, message := some e.message, extraData := some e.val }

/-- Email-lookup guard. Destructures `email` from the body (throwing on a
`null` or `undefined` body), lower-cases it (throwing a TypeError when it is
not a string), and looks the user up; a miss is answered directly with a 400
JSON body, a hit attaches the user and continues; a thrown exception goes to
the catch block, which forwards a `status` 400 descriptor. -/
def isUser (svc : Services) (req : Request) : GuardOutcome :=
  match req.body with
  | .undefined => .nextErr req (catchDescriptor 400 svc.destructureError)
  | .null => .nextErr req (catchDescriptor 400 svc.destructureError)
  | body =>
      match body.getField "email" with
      | .str e =>
          match svc.findUserByEmail (jsToLowerCase e) with
          | none => .respond req 400 (.obj [("error", .str "User not found")])
          | some user => .next { req with user := some user }
      | v => .nextErr req (catchDescriptor 400 (svc.tlcError v))

/-- Verification-state guard. Reading `req.user.sys_id` in the logging call
throws a TypeError when no user is attached, landing in the catch block with a
`status` 500 descriptor; a user with `isVerified === false` fails 400
"User is not verified"; any other `isVerified` value continues. -/
def isVerified (svc : Services) (req : Request) : GuardOutcome :=
  match req.user with
  | none => .nextErr req (catchDescriptor 500 svc.userAccessError)
  | some user =>
      match user.isVerified with
      | .bool false =>
          .nextErr req
            { path := some "/middleware/isVerified", statusCode := some 400
              message := some "User is not verified" }
      | _ => .next req

/-- Minute component shown by `Date.prototype.getMinutes` on a date `t` ms
after the epoch, for a process running in UTC (a date built from a positive
delta, as the source does with `new Date(expiresAt - now)`). -/
def dateGetMinutes (t : Int) : Nat := t.toNat / 60000 % 60

/-- Second component shown by `Date.prototype.getSeconds` on a date `t` ms
after the epoch. -/
def dateGetSeconds (t : Int) : Nat := t.toNat / 1000 % 60

/-- Message built by the cooldown guard from the remaining time `leftTime`
(ms): when the minute component of the delta is nonzero, "M:S minutes",
otherwise "S seconds". -/
def cooldownMessage (leftTime : Int) : String :=
  "Verification mail already sent, you can resend it after " ++
    (if dateGetMinutes leftTime != 0 then
      toString (dateGetMinutes leftTime) ++ ":" ++ toString (dateGetSeconds leftTime) ++ " minutes"
    else
      toString (dateGetSeconds leftTime) ++ " seconds")

/-- Cooldown guard. Reading `req.user.sys_id` throws when no user is attached
(caught, forwarded with a `status` 500 descriptor). A token record for the
user whose `expiresAt` is still in the future fails with `statusCode` 400 and
the cooldown message for `expiresAt - now`; otherwise the chain continues. -/
def verificationMailSent (svc : Services) (now : Int) (req : Request) : GuardOutcome :=
  match req.user with
  | none => .nextErr req (catchDescriptor 500 svc.userAccessError)
  | some user =>
      match svc.findTokenByUserId user.sys_id with
      | some tokenData =>
          if tokenData.expiresAt > now then
            .nextErr req
              { path := some "/middleWare/verificationMailSent", statusCode := some 400
                message := some (cooldownMessage (tokenData.expiresAt - now)) }
          else .next req
      | none => .next req

/-- Configuration record of the rate-limiting library, as the source fills it
in: window length, request cap, the JSON body sent on a limited request, the
key generator, the two header switches and the skip predicate. -/
structure RateLimitOptions where
  windowMs : Int
  maxHits : Nat
  message : JSVal
  keyGenerator : Request → String
  standardHeaders : Bool
  legacyHeaders : Bool
  skip : Request → Bool

/-- Counting store of the limiter: timestamps (ms) of counted requests, each
tagged with its key. -/
structure LimitState where
  hits : List (String × Int) := []
deriving Repr, DecidableEq

/-- Outcome of the limiter on one request: pass it through (with the emitted
rate-limit headers) or answer it with the configured status and body. -/
inductive LimitOutcome where
  | allowed (headers : List String)
  | limited (status : Nat) (body : JSVal) (headers : List String)
deriving Repr

/-- Header names the limiter writes, driven by the `standardHeaders` and
`legacyHeaders` switches. -/
def rateLimitHeaders (opts : RateLimitOptions) : List String :=
  (if opts.standardHeaders then
    ["RateLimit-Limit", "RateLimit-Remaining", "RateLimit-Reset"]
  else []) ++
  (if opts.legacyHeaders then
    ["X-RateLimit-Limit", "X-RateLimit-Remaining", "X-RateLimit-Reset"]
  else [])

/-- Number of counted requests for `key` inside the window ending at `now`. -/
def countRecent (hits : List (String × Int)) (key : String) (now windowMs : Int) : Nat :=
  (hits.filter (fun h => h.1 == key && now - h.2 < windowMs)).length

/-- Modelled from the spec: the rate-limiting library (express-rate-limit, an
external collaborator whose code is not in the repository) keeps a
sliding-window counter per key; a request whose key predicate `skip` holds
bypasses the count entirely; otherwise the request is counted and, when the
count inside the window exceeds `maxHits`, answered directly with status 429
and the configured `message` body; every counted response carries the headers
selected by the two switches. -/
def rateLimitStep (opts : RateLimitOptions) (st : LimitState) (req : Request) (now : Int) :
    LimitOutcome × LimitState :=
  if opts.skip req then (.allowed [], st)
  else
    let key := opts.keyGenerator req
    let recent := countRecent st.hits key now opts.windowMs
    let st2 : LimitState := { hits := (key, now) :: st.hits }
    if recent + 1 > opts.maxHits then
      (.limited 429 opts.message (rateLimitHeaders opts), st2)
    else
      (.allowed (rateLimitHeaders opts), st2)

/-- Key generator `req.user.githubId` of the source. Reading `githubId` of an
absent user would throw at run time; the limiter is installed behind
`verifyJWT`, which always attaches a user before continuing, so the `none`
case is unreachable in a chain and the model totalises it with the empty
string. -/
def Request.userGithubId (req : Request) : String :=
  match req.user with
  | some u => u.githubId
  | none => ""

/-- The rate limiter configuration of the source: a 2-minute window, at most
2 requests, a fixed 429 message body, keys taken from the authenticated user
githubId, standard headers on, legacy headers off, and a hardcoded one-entry
allowlist. -/
def rateLimiting : RateLimitOptions :=
  { windowMs := 2 * 60 * 1000
    maxHits := 2
    message := .obj
      [("path", .str "/middleWare/rateLimitExceeded"),
       ("statusCode", .num 429),
       ("message", .str "Too many requests from this user, please try again after 2 minutes.")]
    keyGenerator := Request.userGithubId
    standardHeaders := true
    legacyHeaders := false
    skip := fun req => req.userGithubId == "jalaym825" }

/-- A pipeline stage, as installed on a route. -/
def Guard := Request → GuardOutcome

/-- The rate limiter viewed as a pipeline stage at a fixed store state and
clock: an allowed request continues unchanged, a limited one is answered
directly. -/
def rateLimitGuard (opts : RateLimitOptions) (st : LimitState) (now : Int) : Guard :=
  fun req =>
    match (rateLimitStep opts st req now).1 with
    | .allowed _ => .next req
    | .limited status body _ => .respond req status body

/-- Stages the repository installs behind `verifyJWT` on its routes. -/
inductive DownstreamGuard (svc : Services) : Guard → Prop
  | validate (schema : JSVal → Except ZodError JSVal) : DownstreamGuard svc (validateSchema schema)
  | userLookup : DownstreamGuard svc (isUser svc)
  | verifiedCheck : DownstreamGuard svc (isVerified svc)
  | mailCooldown (now : Int) : DownstreamGuard svc (verificationMailSent svc now)
  | limiter (opts : RateLimitOptions) (st : LimitState) (now : Int) :
      DownstreamGuard svc (rateLimitGuard opts st now)

/-- `ChainSees gs req r` holds when, running the chain `gs` from request
`req`, some stage of `gs` is invoked on request `r`. -/
inductive ChainSees : List Guard → Request → Request → Prop
  | here (g : Guard) (gs : List Guard) (req : Request) : ChainSees (g :: gs) req req
  | later (g : Guard) (gs : List Guard) (req req2 r : Request) :
      g req = .next req2 → ChainSees gs req2 r → ChainSees (g :: gs) req r

/-- Concrete verified user for witnesses. -/
def demoUser : User :=
  { sys_id := "u1", githubId := "g1", email := "ada@club.dev", isVerified := .bool true }

/-- Concrete unverified user for witnesses. -/
def demoUnverified : User :=
  { sys_id := "u2", githubId := "g2", email := "bea@club.dev", isVerified := .bool false }

/-- Concrete allowlisted user for witnesses. -/
def demoAllowUser : User :=
  { sys_id := "u3", githubId := "jalaym825", email := "jal@club.dev", isVerified := .bool true }

/-- Concrete verification token for witnesses, expiring at 150000 ms. -/
def demoVerTok : VerificationToken := { userId := "u1", expiresAt := 150000 }

/-- Concrete service instantiation for witnesses: two decodable tokens, one
user reachable by githubId 7 or by email, one pending verification token. -/
def demoServices : Services :=
  { verify := fun t =>
      if t = "goodtoken" then .ok (.obj [("id", .num 7)])
      else if t = "noidtoken" then .ok (.obj [("sub", .str "x")])
      else if t = "ghosttoken" then .ok (.obj [("id", .num 9)])
      else .error { message := "jwt malformed" }
    findUserByGithubId := fun v =>
      match v with
      | .num 7 => some demoUser
      | _ => none
    findUserByEmail := fun e =>
      if e = "ada@club.dev" then some demoUser
      else if e = "bea@club.dev" then some demoUnverified
      else none
    findTokenByUserId := fun uid =>
      if uid = "u1" then some demoVerTok else none
    tlcError := fun _ => { message := "email.toLowerCase is not a function" }
    destructureError := { message := "Cannot destructure property email of req.body." }
    userAccessError := { message := "Cannot read properties of undefined (reading sys_id)" } }

/-- Concrete schema for witnesses: requires a string `email` field and
normalises the body down to it; otherwise reports two issues. -/
def demoSchema : JSVal → Except ZodError JSVal := fun body =>
  match body.getField "email" with
  | .str e => .ok (.obj [("email", .str e)])
  | _ => .error { firstIssue := { message := "Required" }
                  restIssues := [{ message := "Expected string" }] }

/-- C3: for every descriptor reaching the terminal error handler, a missing
`statusCode` field defaults the response status to 400, and a carried (truthy,
as the source tests it with `if (err.extraData)`) `extraData` value appears
unmodified under the `extraData` key of the error body of the response,
alongside the message. -/
theorem errorMiddleware_defaults_and_extraData (err : ErrDescriptor) :
    (err.statusCode = none → (errorMiddleware err).status = 400) ∧
    (∀ v : JSVal, err.extraData = some v → v.truthy = true →
      (errorMiddleware err).envelope.error.extraData = some v) := by
  constructor
  · intro h
    simp [errorMiddleware, h]
  · intro v hv htr
    simp [errorMiddleware, hv, htr]

/-- Witness for C3 at a concrete descriptor lacking `statusCode` and carrying
`extraData`. -/
theorem errorMiddleware_defaults_and_extraData_witness :
    (errorMiddleware { message := some "boom", extraData := some (.str "why") }).status = 400 ∧
    (errorMiddleware { message := some "boom", extraData := some (.str "why") }).envelope.error.extraData
      = some (.str "why") :=
  ⟨(errorMiddleware_defaults_and_extraData _).1 rfl,
   (errorMiddleware_defaults_and_extraData _).2 (.str "why") rfl (by decide)⟩

/-- C1: at a concrete invalid body, the schema guard builds a descriptor whose
`status` field is 422, whose message is the first issue message and whose
`extraData` is the full issue list, but the error handler reads only the
`statusCode` field, which the guard leaves unset, so the pipeline sends the
response with HTTP status 400 rather than the specified 422. -/
theorem validateSchema_renders_400_not_422 :
    validateSchema demoSchema { body := .obj [] } =
      .nextErr { body := .obj [] }
        { path := some "/middleware/validate", status := some 422
          message := some "Required"
          extraData := some (.arr [.obj [("message", .str "Required")],
                                   .obj [("message", .str "Expected string")]]) } ∧
    (errorMiddleware
        { path := some "/middleware/validate", status := some 422
          message := some "Required"
          extraData := some (.arr [.obj [("message", .str "Required")],
                                   .obj [("message", .str "Expected string")]]) }).status = 400 :=
  ⟨rfl, rfl⟩

/-- C2: at the concrete input that makes the verification guards throw (no
user attached to the context, so reading `req.user.sys_id` raises a
TypeError), both guards forward a descriptor carrying 500 under the `status`
key and nothing under `statusCode`, and the error handler therefore sends the
response with HTTP status 400 rather than the specified 500. -/
theorem guardExceptions_render_400_not_500 :
    isVerified demoServices {} =
      .nextErr {} (catchDescriptor 500 demoServices.userAccessError) ∧
    verificationMailSent demoServices 0 {} =
      .nextErr {} (catchDescriptor 500 demoServices.userAccessError) ∧
    (catchDescriptor 500 demoServices.userAccessError).status = some 500 ∧
    (catchDescriptor 500 demoServices.userAccessError).statusCode = none ∧
    (errorMiddleware (catchDescriptor 500 demoServices.userAccessError)).status = 400 :=
  ⟨rfl, rfl, rfl, rfl, rfl⟩

/-- C4: the authentication guard selects the token from the `token` cookie,
falling back to the second space-separated part of the Authorization header
when the cookie is falsy, and its failure cases are exactly: a falsy token
fails 401 "No token provided"; a token whose verification throws fails 401
"Invalid token"; a verified payload whose `id` claim is falsy (in particular
absent) fails 401 "Invalid token"; an `id` claim matching no user record
fails 401 "User not found"; in every remaining case the guard succeeds. -/
theorem verifyJWT_cases (svc : Services) (req : Request) :
    (∀ s : String, req.cookieToken = some s → s ≠ "" → selectToken req = some s) ∧
    (∀ h : String, req.authHeader = some h → tokenTruthy req.cookieToken = false →
      selectToken req = (jsSplitSpace h).get? 1) ∧
    (req.cookieToken = none → req.authHeader = none →
      verifyJWT svc req = .nextErr req
        { path := some "/middleware/verifyJWT", statusCode := some 401
          message := some "No token provided" }) ∧
    (∀ (t : String) (e : JsError), selectToken req = some t → t ≠ "" →
      svc.verify t = .error e →
      verifyJWT svc req = .nextErr req
        { path := some "/middleware/verifyJWT", statusCode := some 401
          message := some "Invalid token" }) ∧
    (∀ (t : String) (p : JSVal), selectToken req = some t → t ≠ "" →
      svc.verify t = .ok p → (p.getField "id").truthy = false →
      verifyJWT svc req = .nextErr req
        { path := some "/middleware/verifyJWT", statusCode := some 401
          message := some "Invalid token" }) ∧
    (∀ (t : String) (p : JSVal), selectToken req = some t → t ≠ "" →
      svc.verify t = .ok p → (p.getField "id").truthy = true →
      svc.findUserByGithubId (p.getField "id") = none →
      verifyJWT svc req = .nextErr req
        { path := some "/middleware/verifyJWT", statusCode := some 401
          message := some "User not found" }) ∧
    (∀ (t : String) (p : JSVal) (u : User), selectToken req = some t → t ≠ "" →
      svc.verify t = .ok p → (p.getField "id").truthy = true →
      svc.findUserByGithubId (p.getField "id") = some u →
      verifyJWT svc req = .next { req with user := some u }) := by
  refine ⟨?_, ?_, ?_, ?_, ?_, ?_, ?_⟩
  · intro s hs hne
    simp [selectToken, hs, hne]
  · intro h hh hct
    cases hc : req.cookieToken with
    | none => simp [selectToken, hh, hc]
    | some s =>
        rw [hc] at hct
        simp only [tokenTruthy, bne_eq_false_iff_eq] at hct
        simp [selectToken, hh, hc, hct]
  · intro h1 h2
    simp [verifyJWT, selectToken, tokenTruthy, h1, h2]
  · intro t e ht hne hv
    simp [verifyJWT, ht, tokenTruthy, hne, hv]
  · intro t p ht hne hv hid
    simp [verifyJWT, ht, tokenTruthy, hne, hv, hid]
  · intro t p ht hne hv hid hu
    simp [verifyJWT, ht, tokenTruthy, hne, hv, hid, hu]
  · intro t p u ht hne hv hid hu
    simp [verifyJWT, ht, tokenTruthy, hne, hv, hid, hu]

/-- Witness for C4, exercising every case at concrete requests against the
demo services. -/
theorem verifyJWT_cases_witness :
    selectToken { cookieToken := some "goodtoken" } = some "goodtoken" ∧
    selectToken { authHeader := some "Bearer zzz" } = some "zzz" ∧
    verifyJWT demoServices {} = .nextErr {}
      { path := some "/middleware/verifyJWT", statusCode := some 401
        message := some "No token provided" } ∧
    verifyJWT demoServices { cookieToken := some "badtoken" } =
      .nextErr { cookieToken := some "badtoken" }
        { path := some "/middleware/verifyJWT", statusCode := some 401
          message := some "Invalid token" } ∧
    verifyJWT demoServices { cookieToken := some "noidtoken" } =
      .nextErr { cookieToken := some "noidtoken" }
        { path := some "/middleware/verifyJWT", statusCode := some 401
          message := some "Invalid token" } ∧
    verifyJWT demoServices { cookieToken := some "ghosttoken" } =
      .nextErr { cookieToken := some "ghosttoken" }
        { path := some "/middleware/verifyJWT", statusCode := some 401
          message := some "User not found" } ∧
    verifyJWT demoServices { cookieToken := some "goodtoken" } =
      .next { cookieToken := some "goodtoken", user := some demoUser } :=
  ⟨(verifyJWT_cases demoServices { cookieToken := some "goodtoken" }).1
      "goodtoken" rfl (by decide),
   (verifyJWT_cases demoServices { cookieToken := none, authHeader := some "Bearer zzz" }).2.1
      "Bearer zzz" rfl rfl,
   (verifyJWT_cases demoServices {}).2.2.1 rfl rfl,
   (verifyJWT_cases demoServices { cookieToken := some "badtoken" }).2.2.2.1
      "badtoken" { message := "jwt malformed" } rfl (by decide) rfl,
   (verifyJWT_cases demoServices { cookieToken := some "noidtoken" }).2.2.2.2.1
      "noidtoken" (.obj [("sub", .str "x")]) rfl (by decide) rfl rfl,
   (verifyJWT_cases demoServices { cookieToken := some "ghosttoken" }).2.2.2.2.2.1
      "ghosttoken" (.obj [("id", .num 9)]) rfl (by decide) rfl (by decide) rfl,
   (verifyJWT_cases demoServices { cookieToken := some "goodtoken" }).2.2.2.2.2.2
      "goodtoken" (.obj [("id", .num 7)]) demoUser rfl (by decide) rfl (by decide) rfl⟩

/-- Successful authentication always comes from the branch that attaches the
found user to the request. -/
theorem verifyJWT_next_user (svc : Services) (req req2 : Request)
    (h : verifyJWT svc req = .next req2) :
    ∃ u : User, req2 = { req with user := some u } := by
  simp only [verifyJWT] at h
  split at h
  · cases h
  · split at h
    · cases h
    · split at h
      · cases h
      · split at h
        · cases h
        · exact ⟨_, by cases h; rfl⟩

/-- Every repository guard installed behind authentication keeps a non-null
attached user non-null when it continues the chain. -/
theorem downstream_preserves_user (svc : Services) (g : Guard)
    (hg : DownstreamGuard svc g) (req req2 : Request)
    (h : g req = .next req2) (hreq : req.user.isSome) : req2.user.isSome := by
  cases hg with
  | validate schema =>
      simp only [validateSchema] at h
      split at h
      · cases h; exact hreq
      · cases h
  | userLookup =>
      simp only [isUser] at h
      split at h
      · cases h
      · cases h
      · split at h
        · split at h
          · cases h
          · cases h; simp
        · cases h
  | verifiedCheck =>
      simp only [isVerified] at h
      split at h
      · cases h
      · split at h
        · cases h
        · cases h; exact hreq
  | mailCooldown now =>
      simp only [verificationMailSent] at h
      split at h
      · cases h
      · split at h
        · split at h
          · cases h
          · cases h; exact hreq
        · cases h; exact hreq
  | limiter opts st now =>
      simp only [rateLimitGuard] at h
      split at h
      · cases h; exact hreq
      · cases h

/-- A chain of repository guards started on a request with a non-null user
only ever invokes its stages on requests with a non-null user. -/
theorem chainSees_preserves_user (svc : Services) :
    ∀ (gs : List Guard) (req r : Request), ChainSees gs req r →
      (∀ g ∈ gs, DownstreamGuard svc g) → req.user.isSome → r.user.isSome := by
  intro gs req r h
  induction h with
  | here g gs req => intro _ hreq; exact hreq
  | later g gs req req2 r hstep _ ih =>
      intro hgs hreq
      exact ih (fun g2 hg2 => hgs g2 (List.mem_cons_of_mem _ hg2))
        (downstream_preserves_user svc g (hgs g (List.mem_cons_self _ _)) req req2 hstep hreq)

/-- C5: whenever the authentication guard calls the continuation without an
error, it has attached the found user record to the request context, and that
reference stays non-null at every request any downstream repository guard of
the same chain is invoked on. -/
theorem verifyJWT_user_invariant (svc : Services) (req req2 : Request)
    (h : verifyJWT svc req = .next req2) :
    req2.user.isSome ∧
    ∀ gs : List Guard, (∀ g ∈ gs, DownstreamGuard svc g) →
      ∀ r : Request, ChainSees gs req2 r → r.user.isSome := by
  obtain ⟨u, rfl⟩ := verifyJWT_next_user svc req req2 h
  exact ⟨by simp,
    fun gs hgs r hsees => chainSees_preserves_user svc gs _ r hsees hgs (by simp)⟩

/-- Witness for C5: a successful authentication followed by a two-stage chain
still sees the attached user at the second stage. -/
theorem verifyJWT_user_invariant_witness :
    ({ cookieToken := some "goodtoken", user := some demoUser } : Request).user.isSome :=
  (verifyJWT_user_invariant demoServices { cookieToken := some "goodtoken" }
      { cookieToken := some "goodtoken", user := some demoUser } rfl).2
    [isVerified demoServices, verificationMailSent demoServices 999999999]
    (by
      intro g hg
      simp only [List.mem_cons, List.mem_singleton, List.not_mem_nil, or_false] at hg
      rcases hg with rfl | rfl
      · exact DownstreamGuard.verifiedCheck
      · exact DownstreamGuard.mailCooldown _)
    { cookieToken := some "goodtoken", user := some demoUser }
    (ChainSees.later _ _ _ _ _ rfl (ChainSees.here _ _ _))

/-- C6: when the body carries a string email that, lower-cased, matches no
user in the store, the email-lookup guard writes a 400 "User not found" JSON
body directly to the client instead of using the continuation or error
channel; when the email matches, the user is attached and the chain
continues. -/
theorem isUser_cases (svc : Services) (req : Request) :
    (∀ e : String, req.body.getField "email" = .str e →
      svc.findUserByEmail (jsToLowerCase e) = none →
      isUser svc req = .respond req 400 (.obj [("error", .str "User not found")])) ∧
    (∀ (e : String) (u : User), req.body.getField "email" = .str e →
      svc.findUserByEmail (jsToLowerCase e) = some u →
      isUser svc req = .next { req with user := some u }) := by
  constructor
  · intro e he hfind
    cases hb : req.body <;> rw [hb] at he
    case obj fields => simp [isUser, hb, he, hfind]
    all_goals simp [JSVal.getField] at he
  · intro e u he hfind
    cases hb : req.body <;> rw [hb] at he
    case obj fields => simp [isUser, hb, he, hfind]
    all_goals simp [JSVal.getField] at he

/-- Witness for C6: a missing email is answered directly with 400, a matching
email attaches the user and continues. -/
theorem isUser_cases_witness :
    isUser demoServices { body := .obj [("email", .str "Ghost@club.dev")] } =
      .respond { body := .obj [("email", .str "Ghost@club.dev")] } 400
        (.obj [("error", .str "User not found")]) ∧
    isUser demoServices { body := .obj [("email", .str "Ada@Club.dev")] } =
      .next { body := .obj [("email", .str "Ada@Club.dev")], user := some demoUser } :=
  ⟨(isUser_cases demoServices { body := .obj [("email", .str "Ghost@club.dev")] }).1
      "Ghost@club.dev" rfl rfl,
   (isUser_cases demoServices { body := .obj [("email", .str "Ada@Club.dev")] }).2
      "Ada@Club.dev" demoUser rfl rfl⟩

/-- C7: with a user attached, the verification-state guard fails 400
"User is not verified" exactly when `isVerified` is the boolean `false`, and
continues for every other value (true, null, undefined, or anything else). -/
theorem isVerified_cases (svc : Services) (req : Request) (u : User)
    (hu : req.user = some u) :
    (u.isVerified = .bool false →
      isVerified svc req = .nextErr req
        { path := some "/middleware/isVerified", statusCode := some 400
          message := some "User is not verified" }) ∧
    (u.isVerified ≠ .bool false → isVerified svc req = .next req) := by
  constructor
  · intro hv
    simp [isVerified, hu, hv]
  · intro hv
    simp only [isVerified, hu]

/-- Witness for C7: an unverified user is rejected, a verified one passes. -/
theorem isVerified_cases_witness :
    isVerified demoServices { user := some demoUnverified } =
      .nextErr { user := some demoUnverified }
        { path := some "/middleware/isVerified", statusCode := some 400
          message := some "User is not verified" } ∧
    isVerified demoServices { user := some demoUser } = .next { user := some demoUser } :=
  ⟨(isVerified_cases demoServices { user := some demoUnverified } demoUnverified rfl).1 rfl,
   (isVerified_cases demoServices { user := some demoUser } demoUser rfl).2 (by simp [demoUser])⟩

/-- C8: with a user attached, a pending verification token whose expiry lies
in the future makes the cooldown guard fail with a 400 descriptor whose
message embeds the remaining time `expiresAt - now`, rendered from the
minute and second components of that delta ("M:S minutes" when the minute
component of the delta is nonzero, otherwise "S seconds", not a full duration
breakdown); with no token record, or one whose expiry is not in the future,
the guard continues. -/
theorem verificationMailSent_cases (svc : Services) (now : Int) (req : Request) (u : User)
    (hu : req.user = some u) :
    (∀ tk : VerificationToken, svc.findTokenByUserId u.sys_id = some tk →
      tk.expiresAt > now →
      verificationMailSent svc now req = .nextErr req
        { path := some "/middleWare/verificationMailSent", statusCode := some 400
          message := some ("Verification mail already sent, you can resend it after " ++
            (if (tk.expiresAt - now).toNat / 60000 % 60 ≠ 0 then
              toString ((tk.expiresAt - now).toNat / 60000 % 60) ++ ":" ++
                toString ((tk.expiresAt - now).toNat / 1000 % 60) ++ " minutes"
            else
              toString ((tk.expiresAt - now).toNat / 1000 % 60) ++ " seconds")) }) ∧
    (svc.findTokenByUserId u.sys_id = none →
      verificationMailSent svc now req = .next req) ∧
    (∀ tk : VerificationToken, svc.findTokenByUserId u.sys_id = some tk →
      ¬ tk.expiresAt > now →
      verificationMailSent svc now req = .next req) := by
  refine ⟨?_, ?_, ?_⟩
  · intro tk htk hexp
    simp only [verificationMailSent, hu, htk, if_pos hexp]
    simp [cooldownMessage, dateGetMinutes, dateGetSeconds]
  · intro htk
    simp [verificationMailSent, hu, htk]
  · intro tk htk hexp
    simp [verificationMailSent, hu, htk, hexp]

/-- Witness for C8: a token expiring 150000 ms from now blocks with the
"2:30 minutes" message; a user without a token record passes; once the expiry
has passed, the request passes. -/
theorem verificationMailSent_cases_witness :
    verificationMailSent demoServices 0 { user := some demoUser } =
      .nextErr { user := some demoUser }
        { path := some "/middleWare/verificationMailSent", statusCode := some 400
          message := some "Verification mail already sent, you can resend it after 2:30 minutes" } ∧
    verificationMailSent demoServices 0 { user := some demoUnverified } =
      .next { user := some demoUnverified } ∧
    verificationMailSent demoServices 200000 { user := some demoUser } =
      .next { user := some demoUser } :=
  ⟨(verificationMailSent_cases demoServices 0 { user := some demoUser } demoUser rfl).1
      demoVerTok rfl (by decide),
   (verificationMailSent_cases demoServices 0 { user := some demoUnverified }
      demoUnverified rfl).2.1 rfl,
   (verificationMailSent_cases demoServices 200000 { user := some demoUser } demoUser rfl).2.2
      demoVerTok rfl (by decide)⟩

/-- A key with no counted request in the store has a zero window count. -/
theorem countRecent_zero (hits : List (String × Int)) (key : String) (now w : Int)
    (h : ∀ p ∈ hits, p.1 ≠ key) : countRecent hits key now w = 0 := by
  simp only [countRecent, List.length_eq_zero]
  refine List.filter_eq_nil_iff.mpr ?_
  intro p hp
  simp [h p hp]

/-- A counted request for the same key inside the window adds one to the
window count. -/
theorem countRecent_cons_same (key : String) (t : Int) (hits : List (String × Int))
    (now w : Int) (ht : now - t < w) :
    countRecent ((key, t) :: hits) key now w = countRecent hits key now w + 1 := by
  simp [countRecent, List.filter_cons, ht]

/-- C9: the limiter counts per `githubId` over a 2-minute window with limit 2:
starting from a store with no counted request for the key, two requests inside
a window pass and the third inside the same window is answered 429 with the
configured body, whose `message` field is the fixed text; the allowlisted
identifier is never limited; standard rate-limit headers are emitted and
legacy ones are not. -/
theorem rateLimiting_spec (st : LimitState) (req : Request) (u : User) (t1 t2 t3 : Int)
    (hu : req.user = some u) (hskip : u.githubId ≠ "jalaym825")
    (hfresh : ∀ p ∈ st.hits, p.1 ≠ u.githubId)
    (h12 : t1 ≤ t2) (h23 : t2 ≤ t3) (hwin : t3 - t1 < 120000) :
    rateLimiting.windowMs = 120000 ∧
    rateLimiting.maxHits = 2 ∧
    (rateLimitStep rateLimiting st req t1).1 = .allowed (rateLimitHeaders rateLimiting) ∧
    (rateLimitStep rateLimiting (rateLimitStep rateLimiting st req t1).2 req t2).1 =
      .allowed (rateLimitHeaders rateLimiting) ∧
    (rateLimitStep rateLimiting
        (rateLimitStep rateLimiting (rateLimitStep rateLimiting st req t1).2 req t2).2 req t3).1 =
      .limited 429 rateLimiting.message (rateLimitHeaders rateLimiting) ∧
    rateLimiting.message.getField "message" =
      .str "Too many requests from this user, please try again after 2 minutes." ∧
    rateLimitHeaders rateLimiting =
      ["RateLimit-Limit", "RateLimit-Remaining", "RateLimit-Reset"] ∧
    (∀ (st2 : LimitState) (req2 : Request) (u2 : User) (now : Int), req2.user = some u2 →
      u2.githubId = "jalaym825" →
      (rateLimitStep rateLimiting st2 req2 now).1 = .allowed []) := by
  have hskipb : (u.githubId == "jalaym825") = false := beq_eq_false_iff_ne.mpr hskip
  have c1a : countRecent st.hits u.githubId t1 120000 = 0 :=
    countRecent_zero _ _ _ _ hfresh
  have c1b : countRecent st.hits u.githubId t2 120000 = 0 :=
    countRecent_zero _ _ _ _ hfresh
  have c1c : countRecent st.hits u.githubId t3 120000 = 0 :=
    countRecent_zero _ _ _ _ hfresh
  have c2 : countRecent ((u.githubId, t1) :: st.hits) u.githubId t2 120000 = 1 := by
    rw [countRecent_cons_same _ _ _ _ _ (by omega), c1b]
  have c3a : countRecent ((u.githubId, t1) :: st.hits) u.githubId t3 120000 = 1 := by
    rw [countRecent_cons_same _ _ _ _ _ (by omega), c1c]
  have c3 : countRecent ((u.githubId, t2) :: (u.githubId, t1) :: st.hits)
      u.githubId t3 120000 = 2 := by
    rw [countRecent_cons_same _ _ _ _ _ (by omega), c3a]
  have e1 : rateLimitStep rateLimiting st req t1 =
      (.allowed (rateLimitHeaders rateLimiting), ⟨(u.githubId, t1) :: st.hits⟩) := by
    simp [rateLimitStep, rateLimiting, Request.userGithubId, hu, hskipb, c1a]
  have e2 : rateLimitStep rateLimiting ⟨(u.githubId, t1) :: st.hits⟩ req t2 =
      (.allowed (rateLimitHeaders rateLimiting),
        ⟨(u.githubId, t2) :: (u.githubId, t1) :: st.hits⟩) := by
    simp [rateLimitStep, rateLimiting, Request.userGithubId, hu, hskipb, c2]
  have e3 : rateLimitStep rateLimiting
      ⟨(u.githubId, t2) :: (u.githubId, t1) :: st.hits⟩ req t3 =
      (.limited 429 rateLimiting.message (rateLimitHeaders rateLimiting),
        ⟨(u.githubId, t3) :: (u.githubId, t2) :: (u.githubId, t1) :: st.hits⟩) := by
    simp [rateLimitStep, rateLimiting, Request.userGithubId, hu, hskipb, c3]
  refine ⟨by norm_num [rateLimiting], rfl, ?_, ?_, ?_, rfl, rfl, ?_⟩
  · rw [e1]
  · rw [e1, e2]
  · rw [e1, e2, e3]
  · intro st2 req2 u2 now h1 h2
    simp [rateLimitStep, rateLimiting, Request.userGithubId, h1, h2]

/-- Witness for C9: a fresh store, one non-allowlisted user, requests at 0,
1000 and 2000 ms; the first two pass, the third is limited; the allowlisted
user passes a step on the same store unconditionally. -/
theorem rateLimiting_spec_witness :
    rateLimiting.windowMs = 120000 ∧
    rateLimiting.maxHits = 2 ∧
    (rateLimitStep rateLimiting ⟨[]⟩ { user := some demoUser } 0).1 =
      .allowed (rateLimitHeaders rateLimiting) ∧
    (rateLimitStep rateLimiting (rateLimitStep rateLimiting ⟨[]⟩ { user := some demoUser } 0).2
        { user := some demoUser } 1000).1 = .allowed (rateLimitHeaders rateLimiting) ∧
    (rateLimitStep rateLimiting
        (rateLimitStep rateLimiting (rateLimitStep rateLimiting ⟨[]⟩ { user := some demoUser } 0).2
          { user := some demoUser } 1000).2 { user := some demoUser } 2000).1 =
      .limited 429 rateLimiting.message (rateLimitHeaders rateLimiting) ∧
    rateLimiting.message.getField "message" =
      .str "Too many requests from this user, please try again after 2 minutes." ∧
    rateLimitHeaders rateLimiting =
      ["RateLimit-Limit", "RateLimit-Remaining", "RateLimit-Reset"] ∧
    (∀ (st2 : LimitState) (req2 : Request) (u2 : User) (now : Int), req2.user = some u2 →
      u2.githubId = "jalaym825" →
      (rateLimitStep rateLimiting st2 req2 now).1 = .allowed []) :=
  rateLimiting_spec ⟨[]⟩ { user := some demoUser } demoUser 0 1000 2000
    rfl (by decide) (by simp) (by decide) (by decide) (by decide)

/-- C10: on a body without a usable email (the `email` property is not a
string, in particular `undefined`, or the body itself is `null` or
`undefined`), the email-lookup guard neither continues nor crashes: the
thrown TypeError is caught and forwarded as a descriptor carrying the
exception message and the exception as `extraData`, which the error handler
renders as an HTTP 400 response. -/
theorem isUser_missing_email_safe (svc : Services) (req : Request) :
    ((req.body = .undefined ∨ req.body = .null) →
      isUser svc req = .nextErr req (catchDescriptor 400 svc.destructureError) ∧
      (errorMiddleware (catchDescriptor 400 svc.destructureError)).status = 400) ∧
    (∀ v : JSVal, req.body ≠ .undefined → req.body ≠ .null →
      req.body.getField "email" = v → v.isStr = false →
      isUser svc req = .nextErr req (catchDescriptor 400 (svc.tlcError v)) ∧
      (catchDescriptor 400 (svc.tlcError v)).message = some (svc.tlcError v).message ∧
      (catchDescriptor 400 (svc.tlcError v)).extraData = some (svc.tlcError v).val ∧
      (errorMiddleware (catchDescriptor 400 (svc.tlcError v))).status = 400) := by
  constructor
  · rintro (hb | hb) <;> exact ⟨by simp [isUser, hb], by simp [errorMiddleware, catchDescriptor]⟩
  · intro v hnu hnn hv hstr
    refine ⟨?_, rfl, rfl, by simp [errorMiddleware, catchDescriptor]⟩
    cases hb : req.body
    case undefined => exact absurd hb hnu
    case null => exact absurd hb hnn
    case obj fields =>
      rw [hb] at hv
      cases v
      case str s => simp [JSVal.isStr] at hstr
      all_goals simp [isUser, hb, hv]
    all_goals rw [hb] at hv
    all_goals simp only [JSVal.getField] at hv
    all_goals subst hv
    all_goals simp [isUser, hb, JSVal.getField]

/-- Witness for C10: an object body without an email field and an undefined
body are both forwarded to the error handler and rendered 400. -/
theorem isUser_missing_email_safe_witness :
    isUser demoServices { body := .obj [("name", .str "ada")] } =
      .nextErr { body := .obj [("name", .str "ada")] }
        (catchDescriptor 400 (demoServices.tlcError .undefined)) ∧
    (errorMiddleware (catchDescriptor 400 (demoServices.tlcError .undefined))).status = 400 ∧
    isUser demoServices {} = .nextErr {} (catchDescriptor 400 demoServices.destructureError) :=
  ⟨((isUser_missing_email_safe demoServices { body := .obj [("name", .str "ada")] }).2
      JSVal.undefined (by simp) (by simp) rfl rfl).1,
   ((isUser_missing_email_safe demoServices { body := .obj [("name", .str "ada")] }).2
      JSVal.undefined (by simp) (by simp) rfl rfl).2.2.2,
   ((isUser_missing_email_safe demoServices {}).1 (Or.inl rfl)).1⟩
